import Mathlib

set_option maxRecDepth 4096

/-!
# Verification of the soceng-ci reverse-tunnel client

Shallow embedding of the tunnel client (`src/client/tunnel.ts`, reconstructed
from `src/unnamed/part_000`, and `src/client/tunnel-http2-handler.ts`) together
with proofs of the spec claims.

The embedding mirrors the TypeScript source:
* `Tunnel.close` embeds `Tunnel.close()` (part_000 lines 278-291),
* `onWsMessage` / `processFrames` embed the per-channel `ws.on("message")`
  handler (lines 246-257),
* `connectLoop` / `connectToServer` embed the channel-pool setup loop
  (lines 188-276),
* `getTunnelInfoHandleResponse` embeds the allocation response handler
  (lines 120-160) with `parseURL` modelling the WHATWG `new URL` behaviour
  used there,
* `filterRequestHeaders` / `filterResponseHeaders`, `onRequestPipelineError`,
  `onClientReqError`, `onResponsePipelineError` embed the HTTP forwarder
  (tunnel-http2-handler.ts lines 74-135),
* `onVirtualData` / `onVirtualEnd` embed the WebSocket bridge data/end
  callbacks (lines 159-191).
-/

/-- WebSocket `readyState` values (the `ws` library constants
CONNECTING/OPEN/CLOSING/CLOSED). `opened` models `WebSocket.OPEN`. -/
inductive WsReadyState
  | connecting
  | opened
  | closing
  | closed
deriving DecidableEq, Repr

/-- A parsed control message: the shape `JSON.parse` produces for the
`TunnelDonePayload` interface `{type, tunnel_id, data}` (part_000 lines
14-18); `data` is kept abstract as an optional serialized blob. -/
structure ControlMsg where
  type : String
  tunnel_id : String
  data : Option String
deriving DecidableEq, Repr

/-- Events the `Tunnel` EventEmitter can emit (the `TunnelEvents` interface,
part_000 lines 20-26). `closeEv` models the `"close"` event. -/
inductive TunnelEvent
  | openedEv (url : String)
  | closeEv
  | errorEv (msg : String)
  | requestEv (method : String) (path : String)
  | tunnelDone (payload : ControlMsg)
deriving DecidableEq, Repr

/-- The mutable state of a `Tunnel` relevant to teardown: the `closed` boolean
flag, whether an `h2Handler` is installed (`h2Handler !== null`), and the
ready states of the sockets in `wsConnections`. -/
structure TunnelState where
  closed : Bool
  h2Handler : Bool
  wsConnections : List WsReadyState
deriving DecidableEq, Repr

/-- What one invocation of `Tunnel.close()` does: the resulting state, whether
`h2Handler.close()` ran, how many `ws.close()` calls were made, and the
events emitted during the call. -/
structure CloseEffect where
  state : TunnelState
  handlerClosed : Bool
  wsCloseCalls : Nat
  events : List TunnelEvent
deriving DecidableEq, Repr

/-- Embedding of `Tunnel.close()` (part_000 lines 278-291): sets
`this.closed = true`; if `h2Handler` is non-null, closes and nulls it; calls
`ws.close()` on every connection whose `readyState` is OPEN or CONNECTING;
clears `wsConnections`; and emits `"close"`.  Note the source has no
early-return guard on `this.closed`, and the `emit("close")` is
unconditional. The function is total: `close()` never throws. -/
def Tunnel.close (s : TunnelState) : CloseEffect :=
  { state := { closed := true, h2Handler := false, wsConnections := [] },
    handlerClosed := s.h2Handler,
    wsCloseCalls :=
      (s.wsConnections.filter
        (fun r => r = WsReadyState.opened ∨ r = WsReadyState.connecting)).length,
    events := [TunnelEvent.closeEv] }

/-- One inbound WebSocket frame as seen by the `ws.on("message")` callback:
the `isBinary` flag and, for text frames, the result of `JSON.parse` on the
payload (`none` when parsing throws, i.e. the text is not valid JSON). -/
structure WsFrame where
  isBinary : Bool
  parsed : Option ControlMsg
deriving DecidableEq, Repr

/-- The outcome of delivering frames to the message handler: the final tunnel
state, the events emitted, and the number of times `this.close()` executed. -/
structure FrameOutcome where
  state : TunnelState
  events : List TunnelEvent
  closeExecutions : Nat
deriving DecidableEq, Repr

/-- Embedding of the per-channel `ws.on("message")` handler (part_000 lines
246-257): binary frames and frames arriving after `this.closed` are ignored;
a text frame is `JSON.parse`d (a parse failure is caught and ignored); when
`payload.type === "tunnel_done"` the handler emits `tunnel_done` with the
payload and calls `this.close()`. -/
def onWsMessage (s : TunnelState) (f : WsFrame) : FrameOutcome :=
  if f.isBinary || s.closed then { state := s, events := [], closeExecutions := 0 }
  else
    match f.parsed with
    | none => { state := s, events := [], closeExecutions := 0 }
    | some m =>
      if m.type = "tunnel_done" then
        let eff := Tunnel.close s
        { state := eff.state,
          events := TunnelEvent.tunnelDone m :: eff.events,
          closeExecutions := 1 }
      else { state := s, events := [], closeExecutions := 0 }

/-- Delivering a sequence of frames (possibly arriving on different pooled
channels; the runtime dispatches the callbacks sequentially). -/
def processFrames (s : TunnelState) : List WsFrame → FrameOutcome
  | [] => { state := s, events := [], closeExecutions := 0 }
  | f :: rest =>
    let o1 := onWsMessage s f
    let o2 := processFrames o1.state rest
    { state := o2.state,
      events := o1.events ++ o2.events,
      closeExecutions := o1.closeExecutions + o2.closeExecutions }

/-- A frame that the handler recognises as a `tunnel_done` control frame:
a text frame whose payload parses to JSON with `type = "tunnel_done"`. -/
def isDoneFrame (f : WsFrame) : Bool :=
  !f.isBinary &&
    (match f.parsed with
     | some m => m.type == "tunnel_done"
     | none => false)

/-- The payload of the first recognised `tunnel_done` frame, if any. -/
def firstDone (fs : List WsFrame) : Option ControlMsg :=
  match fs.find? isDoneFrame with
  | some f => f.parsed
  | none => none

/-! ## Transport pool setup (`Tunnel.connectToServer`, part_000 lines 183-276) -/

/-- The result of one channel handshake: the awaited promise either resolves
(`ws.once("open")`) or rejects with the underlying error message
(`ws.once("error")`). -/
inductive HandshakeOutcome
  | ok
  | fail (msg : String)
deriving DecidableEq, Repr

/-- Whether `connectToServer` resolved or rejected (and with what message). -/
inductive ConnectResult
  | ok
  | rejected (msg : String)
deriving DecidableEq, Repr

/-- The observable outcome of `connectToServer`: resolution/rejection, the
ready states of the channels accumulated in `this.wsConnections` when the
function returns, and whether the `TunnelHTTP2Handler` was constructed and
started. -/
structure ConnectOutcome where
  result : ConnectResult
  channels : List WsReadyState
  handlerStarted : Bool
deriving DecidableEq, Repr

/-- The sequential handshake loop of `connectToServer` (part_000 lines
194-261). `i` is the loop index, `fuel` the number of iterations left, `acc`
the channels pushed onto `this.wsConnections` so far.  A successful handshake
leaves the socket OPEN and appends it; a failed handshake rejects with a
message naming `remoteHost:remotePort`, leaving the already-opened channels
untouched (the source performs no `ws.close()` on them) and never reaching
the `TunnelHTTP2Handler` construction. -/
def connectLoop (remoteHost : String) (remotePort : Nat)
    (hs : Nat → HandshakeOutcome) :
    Nat → Nat → List WsReadyState → ConnectOutcome
  | _, 0, acc =>
    { result := ConnectResult.ok, channels := acc, handlerStarted := true }
  | i, fuel + 1, acc =>
    match hs i with
    | HandshakeOutcome.ok =>
      connectLoop remoteHost remotePort hs (i + 1) fuel
        (acc ++ [WsReadyState.opened])
    | HandshakeOutcome.fail msg =>
      { result := ConnectResult.rejected
          ("WebSocket connection failed: " ++ msg ++ " (" ++ remoteHost ++ ":"
            ++ toString remotePort ++ ")"),
        channels := acc,
        handlerStarted := false }

/-- Embedding of `Tunnel.connectToServer` (part_000 lines 183-276): computes
`numConnections = Math.min(os.cpus().length, 16)` and runs the handshake
loop; only after all handshakes succeed is the `TunnelHTTP2Handler` built and
`startListening` called. `cpuCount` is the detected hardware parallelism
(`os.cpus().length`); `hs i` is the result of the `i`-th handshake. -/
def connectToServer (remoteHost : String) (remotePort : Nat) (cpuCount : Nat)
    (hs : Nat → HandshakeOutcome) : ConnectOutcome :=
  connectLoop remoteHost remotePort hs 0 (Nat.min cpuCount 16) []

/-! ## Allocation response handling (`Tunnel.getTunnelInfo`, part_000 lines
94-181).  The error branch strips HTML tags (`/<[^>]+>/g`), collapses
whitespace (`/\s+/g` to a single space), trims, and caps at 120 chars. -/

/-- After having consumed `<` and one non-`>` character, scan `[^>]*>`:
returns the remainder after the first `>`, or `none` when the input ends
without one. -/
def findTagCloseGo : List Char → Option (List Char)
  | [] => none
  | c :: rest => if c = '>' then some rest else findTagCloseGo rest

/-- Match `[^>]+>` at the front of the input (the part of the regex
`<[^>]+>` after the `<`): at least one non-`>` character followed by `>`.
Returns the remainder after the `>` on a match. -/
def findTagClose : List Char → Option (List Char)
  | [] => none
  | c :: rest => if c = '>' then none else findTagCloseGo rest

/-- Global replacement `data.replace(/<[^>]+>/g, "")`: left-to-right scan;
at each `<`, if `[^>]+>` matches, the whole tag is dropped and scanning
resumes after it; otherwise the `<` is kept.  The scan consumes at least one
character per step, so a fuel of the input length always suffices; the
`fuel = 0` branch is unreachable when started with that fuel. -/
def stripTagsGo : Nat → List Char → List Char
  | _, [] => []
  | 0, _ :: _ => []
  | fuel + 1, c :: rest =>
    if c = '<' then
      match findTagClose rest with
      | some rem => stripTagsGo fuel rem
      | none => c :: stripTagsGo fuel rest
    else c :: stripTagsGo fuel rest

def stripTagsAux (cs : List Char) : List Char := stripTagsGo cs.length cs

/-- The character class `\s` of JavaScript regexes, restricted to its ASCII
members (space, tab, line feed, carriage return, vertical tab, form feed). -/
def isJsSpace (c : Char) : Bool :=
  c = ' ' || c = '\t' || c = '\n' || c = '\r' || c = '\x0b' || c = '\x0c'

/-- Global replacement `.replace(/\s+/g, " ")`: every maximal run of
whitespace becomes a single space. Fuelled like `stripTagsGo`. -/
def collapseWsGo : Nat → List Char → List Char
  | _, [] => []
  | 0, _ :: _ => []
  | fuel + 1, c :: rest =>
    if isJsSpace c then ' ' :: collapseWsGo fuel (rest.dropWhile isJsSpace)
    else c :: collapseWsGo fuel rest

def collapseWsAux (cs : List Char) : List Char := collapseWsGo cs.length cs

/-- `data.replace(/<[^>]+>/g, "")` on strings. -/
def stripHtmlTags (s : String) : String := String.mk (stripTagsAux s.toList)

/-- `.replace(/\s+/g, " ")` on strings. -/
def collapseWhitespace (s : String) : String := String.mk (collapseWsAux s.toList)

/-- JavaScript `.trim()`: remove leading and trailing whitespace. -/
def jsTrim (s : String) : String :=
  String.mk (((s.toList.dropWhile isJsSpace).reverse.dropWhile isJsSpace).reverse)

/-- The `plain` value of part_000 line 135:
`data.replace(/<[^>]+>/g, "").replace(/\s+/g, " ").trim()`. -/
def processBody (s : String) : String := jsTrim (collapseWhitespace (stripHtmlTags s))

/-! ### WHATWG URL model (for `new URL(...)` as used on lines 146-153) -/

/-- A parsed URL as the WHATWG `URL` class exposes it: `port = ""` means no
explicit port (the class stores a scheme-default port as null). -/
structure URLRec where
  scheme : String
  host : String
  port : String
  path : String
deriving DecidableEq, Repr

/-- Default ports of the special schemes (WHATWG URL standard). -/
def defaultPort : String → String
  | "http" => "80"
  | "ws" => "80"
  | "https" => "443"
  | "wss" => "443"
  | _ => ""

/-- Split a character list at the first occurrence of `://` into the part
before it and the part after it. -/
def splitSchemeGo : List Char → Option (List Char × List Char)
  | [] => none
  | ':' :: '/' :: '/' :: rest => some ([], rest)
  | c :: rest => (splitSchemeGo rest).map (fun p => (c :: p.1, p.2))

/-- `new URL(s)` for absolute URLs of shape `scheme://host[:port][/path]`:
splits scheme, authority and path; an explicit port equal to the scheme's
default is normalised away; a missing path becomes `/`; a missing host, a
missing scheme or a non-numeric port makes the constructor throw (`none`). -/
def parseURL (s : String) : Option URLRec :=
  match splitSchemeGo s.toList with
  | none => none
  | some (schCs, restCs) =>
    let sch := String.mk schCs
    let auth := restCs.takeWhile (fun c => c ≠ '/')
    let pathCs := restCs.dropWhile (fun c => c ≠ '/')
    let path := if pathCs.isEmpty then "/" else String.mk pathCs
    let hostCs := auth.takeWhile (fun c => c ≠ ':')
    let portDigits : Option String :=
      match auth.dropWhile (fun c => c ≠ ':') with
      | [] => some ""
      | _ :: ps => if ps.all Char.isDigit then some (String.mk ps) else none
    if schCs = [] ∨ hostCs = [] then none
    else
      match portDigits with
      | none => none
      | some p =>
        some { scheme := sch, host := String.mk hostCs,
               port := if p = defaultPort sch then "" else p,
               path := path }

/-- The WHATWG `protocol` setter, `parsedUrl.protocol = "https:"` (line 148):
sets the scheme and, per the scheme-state step of the URL standard, nulls the
port when it equals the new scheme's default port. -/
def setProtocolHttps (u : URLRec) : URLRec :=
  let u2 := { u with scheme := "https" }
  if u2.port = defaultPort "https" then { u2 with port := "" } else u2

/-- Lines 148-149: force the scheme to https and strip a remaining bare
port 80 (`if (parsedUrl.port === "80") parsedUrl.port = ""`). -/
def normalizeAllocUrl (u : URLRec) : URLRec :=
  let u1 := setProtocolHttps u
  if u1.port = "80" then { u1 with port := "" } else u1

/-- `parsedUrl.toString()`: WHATWG serialisation of our URL fragment. -/
def urlToString (u : URLRec) : String :=
  u.scheme ++ "://" ++ u.host ++ (if u.port = "" then "" else ":" ++ u.port)
    ++ u.path

/-- The fields of the allocation JSON body that the client reads
(`CreateTunnelResponse`; the remaining fields — `created_at`,
`connected_at`, `completed_at`, `playwright_result` — are never consulted). -/
structure CreateTunnelResponse where
  id : Nat
  tunnel_id : String
  url : String
deriving DecidableEq, Repr

/-- The `TunnelInfo` record resolved by `getTunnelInfo`. -/
structure TunnelInfo where
  id : String
  url : String
  remoteHost : String
  remotePort : Nat
deriving DecidableEq, Repr

/-- The outcome of the allocation response handler: `reject(new Error(msg))`
or `resolve(info)`. -/
inductive AllocResult
  | err (msg : String)
  | okInfo (info : TunnelInfo)
deriving DecidableEq, Repr

/-- Embedding of the `res.on("end")` callback of `getTunnelInfo` (part_000
lines 123-160). `scheme` is the scheme used for the allocation call
(`"https"` iff `apiPort === 443`); `status` is `res.statusCode`; `data` the
accumulated body; `parsed` the result of `JSON.parse(data)` (`none` when it
throws). Note the success test is `statusCode !== 200`, and the URL rewrite
runs only when the allocation call itself was made over https. -/
def getTunnelInfoHandleResponse (scheme serverHost : String) (serverPort : Nat)
    (status : Nat) (data : String) (parsed : Option CreateTunnelResponse) :
    AllocResult :=
  if status ≠ 200 then
    let reason :=
      if status = 503 ∨ status = 502 ∨ status = 504 then
        "Tunnel server is temporarily unavailable (HTTP " ++ toString status ++ ")"
      else if status = 401 ∨ status = 403 then
        "Authentication failed (HTTP " ++ toString status ++ ") — check your API token"
      else if status = 429 then
        "Rate limited by tunnel server (HTTP 429) — try again later"
      else
        let plain := processBody data
        "HTTP " ++ toString status ++
          (if plain = "" then "" else ": " ++ plain.take 120)
    AllocResult.err ("Failed to create tunnel: " ++ reason)
  else
    match parsed with
    | none => AllocResult.err ("Failed to parse tunnel response: " ++ data)
    | some r =>
      match parseURL r.url with
      | none => AllocResult.err ("Failed to parse tunnel response: " ++ data)
      | some u =>
        let u2 := if scheme = "https" then normalizeAllocUrl u else u
        AllocResult.okInfo
          { id := r.tunnel_id, url := urlToString u2,
            remoteHost := serverHost, remotePort := serverPort }

/-! ## HTTP forwarder (`TunnelHTTP2Handler.handleHttpRequest`,
tunnel-http2-handler.ts lines 74-135) -/

/-- The hop-by-hop header set `HOP_BY_HOP_HEADERS`
(tunnel-http2-handler.ts lines 12-20). -/
def HOP_BY_HOP_HEADERS : List String :=
  ["connection", "keep-alive", "proxy-authenticate", "proxy-authorization",
   "te", "trailers", "transfer-encoding"]

/-- `key.startsWith(":")`: is the header name a pseudo-header? -/
def startsWithColon (s : String) : Bool :=
  match s.toList with
  | [] => false
  | c :: _ => c = ':'

/-- `key.toLowerCase()` (ASCII range, which covers HTTP header names). -/
def asciiToLower (s : String) : String :=
  String.mk (s.toList.map (fun c =>
    if c.isUpper then Char.ofNat (c.toNat + 32) else c))

/-- Request-header filtering (lines 79-87): keep an entry when its name is
not a pseudo-header (`:`-prefixed) and its lowercased name is not in the
hop-by-hop set; then `delete headersToForward["host"]` and
`delete headersToForward["upgrade"]` (exact-key deletions — HTTP/2 header
names arrive already lowercased). -/
def filterRequestHeaders (hs : List (String × String)) : List (String × String) :=
  ((hs.filter (fun kv =>
      !startsWithColon kv.1
        && !HOP_BY_HOP_HEADERS.contains (asciiToLower kv.1))).filter
    (fun kv => kv.1 ≠ "host")).filter (fun kv => kv.1 ≠ "upgrade")

/-- Response-header filtering (lines 101-106): drop every header whose
lowercased name is in the hop-by-hop set. -/
def filterResponseHeaders (hs : List (String × String)) : List (String × String) :=
  hs.filter (fun kv => !HOP_BY_HOP_HEADERS.contains (asciiToLower kv.1))

/-- The spec's description of which request headers are forwarded: not a
pseudo-header, not hop-by-hop (case-insensitively), and not `host` or
`upgrade` (case-insensitively). Written from the spec's words, to be
compared with `filterRequestHeaders`. -/
def specForwardsHeader (k : String) : Bool :=
  !startsWithColon k && !HOP_BY_HOP_HEADERS.contains (asciiToLower k) &&
    asciiToLower k ≠ "host" && asciiToLower k ≠ "upgrade"

/-- An action performed on the virtual (HTTP/2) response stream `res`, or a
console log. -/
inductive ResAction
  | writeHead (status : Nat) (headers : List (String × String))
  | endBody (body : String)
  | logLine (msg : String)
deriving DecidableEq, Repr

/-- Does the action write onto the virtual response stream? (`writeHead` and
`res.end(body)` do; a console log does not.) -/
def ResAction.writesToResponse : ResAction → Bool
  | ResAction.writeHead _ _ => true
  | ResAction.endBody _ => true
  | ResAction.logLine _ => false

/-- Embedding of the request-pipeline completion callback
`pipeline(req, clientReq, (err) => ...)` (lines 118-126): on an error it
logs, writes a 502 head only if headers were not already sent, and ends the
response with the body `"Bad Gateway"` unconditionally. -/
def onRequestPipelineError (err : Option String) (headersSent : Bool) :
    List ResAction :=
  match err with
  | none => []
  | some m =>
    ResAction.logLine ("Request pipeline error: " ++ m) ::
      ((if headersSent then []
        else [ResAction.writeHead 502 [("content-type", "text/plain")]]) ++
       [ResAction.endBody "Bad Gateway"])

/-- Embedding of the local-connect failure handler
`clientReq.on("error", ...)` (lines 128-134): logs, writes a 502 head only
if headers were not already sent, and ends the response with a body naming
the failure unconditionally. -/
def onClientReqError (m : String) (headersSent : Bool) : List ResAction :=
  ResAction.logLine ("Local request error: " ++ m) ::
    ((if headersSent then []
      else [ResAction.writeHead 502 [("content-type", "text/plain")]]) ++
     [ResAction.endBody ("Failed to connect to local server: " ++ m)])

/-- Embedding of the response-pipeline completion callback
`pipeline(clientRes, res, (err) => ...)` (lines 110-114): an error is logged
and nothing else happens. -/
def onResponsePipelineError (err : Option String) : List ResAction :=
  match err with
  | none => []
  | some m => [ResAction.logLine ("Response pipeline error: " ++ m)]

/-! ## Authorization headers (part_000 lines 113-118 and 199-203) -/

/-- JavaScript string interpolation of a possibly-undefined value:
`` `Bearer ${token}` `` renders `undefined` as the literal text
`"undefined"`. -/
def jsToString : Option String → String
  | some t => t
  | none => "undefined"

/-- JavaScript truthiness of `this.opts.apiToken` (`undefined` and `""` are
falsy). -/
def jsTruthy : Option String → Bool
  | some t => t ≠ ""
  | none => false

/-- The headers of the transport-channel handshake request (part_000 lines
199-203): always exactly one `Authorization` header, built by template
interpolation from `this.opts.apiToken`. -/
def handshakeHeaders (apiToken : Option String) : List (String × String) :=
  [("Authorization", "Bearer " ++ jsToString apiToken)]

/-- The headers of the allocation request (part_000 lines 113-118):
`Content-Type` always; `Authorization` only when `this.opts.apiToken` is
truthy (conditional object spread). -/
def allocationHeaders (apiToken : Option String) : List (String × String) :=
  ("Content-Type", "application/json") ::
    (if jsTruthy apiToken then
      [("Authorization", "Bearer " ++ jsToString apiToken)]
     else [])

/-! ## WebSocket bridge (`TunnelHTTP2Handler.handleWebSocketUpgrade`,
tunnel-http2-handler.ts lines 137-200) -/

/-- An action taken towards the local WebSocket. -/
inductive BridgeAction
  | sendFrame (chunk : List Nat)
  | closeLocal
deriving DecidableEq, Repr

/-- Embedding of the `req.on("data")` callback (lines 166-170), installed
after the 200 "connected" signal: a chunk from the virtual stream is sent to
the local WebSocket only when `localWs.readyState === WebSocket.OPEN`;
otherwise the callback does nothing (the chunk is dropped — no buffer, no
retry). -/
def onVirtualData (st : WsReadyState) (chunk : List Nat) : List BridgeAction :=
  if st = WsReadyState.opened then [BridgeAction.sendFrame chunk] else []

/-- Embedding of the `req.on("end")` callback (lines 172-176): the end of
the virtual stream closes the local WebSocket only when it is OPEN. -/
def onVirtualEnd (st : WsReadyState) : List BridgeAction :=
  if st = WsReadyState.opened then [BridgeAction.closeLocal] else []

/-- An event arriving from the virtual stream. -/
inductive VirtEvent
  | dataChunk (chunk : List Nat)
  | streamEnded
deriving DecidableEq, Repr

/-- Dispatch one virtual-stream event against the local WebSocket's ready
state at that moment. -/
def bridgeStep (p : WsReadyState × VirtEvent) : List BridgeAction :=
  match p.2 with
  | VirtEvent.dataChunk c => onVirtualData p.1 c
  | VirtEvent.streamEnded => onVirtualEnd p.1

/-- A whole run of the bridge over a sequence of virtual-stream events, each
paired with the local WebSocket's ready state when the callback fired. -/
def bridgeRun : List (WsReadyState × VirtEvent) → List BridgeAction
  | [] => []
  | p :: rest => bridgeStep p ++ bridgeRun rest

/-- The chunks sent to the local WebSocket during a run, in order. -/
def sentChunks (as : List BridgeAction) : List (List Nat) :=
  as.filterMap (fun a =>
    match a with
    | BridgeAction.sendFrame c => some c
    | BridgeAction.closeLocal => none)

/-- The chunks that should be forwarded: exactly the data chunks whose
paired ready state was OPEN, in arrival order. -/
def openDataChunks (evs : List (WsReadyState × VirtEvent)) : List (List Nat) :=
  evs.filterMap (fun p =>
    match p with
    | (WsReadyState.opened, VirtEvent.dataChunk c) => some c
    | _ => none)

/-- The number of `closeLocal` actions in a run. -/
def closeLocalCount (as : List BridgeAction) : Nat :=
  (as.filter (fun a => a = BridgeAction.closeLocal)).length

/-! ## Helper lemmas -/

/-- When every handshake succeeds, the pool loop opens exactly `fuel`
channels (all OPEN), resolves, and starts the multiplex handler. -/
theorem connectLoop_all_ok (host : String) (port : Nat)
    (hs : Nat → HandshakeOutcome) (hok : ∀ i, hs i = HandshakeOutcome.ok) :
    ∀ fuel i acc, connectLoop host port hs i fuel acc =
      { result := ConnectResult.ok,
        channels := acc ++ List.replicate fuel WsReadyState.opened,
        handlerStarted := true } := by
  intro fuel
  induction fuel with
  | zero => intro i acc; simp [connectLoop]
  | succ k ih =>
    intro i acc
    rw [connectLoop, hok i]
    rw [ih (i + 1)]
    simp [List.replicate_succ, List.append_assoc]

/-- When the first `m` handshakes succeed and the next one fails, the pool
loop rejects with a message naming `host:port`, leaves the `m` already-opened
channels OPEN in the accumulator, and never starts the handler. -/
theorem connectLoop_first_fail (host : String) (port : Nat)
    (hs : Nat → HandshakeOutcome) (msg : String) :
    ∀ m fuel i acc, (∀ d, d < m → hs (i + d) = HandshakeOutcome.ok) →
      hs (i + m) = HandshakeOutcome.fail msg → m < fuel →
      connectLoop host port hs i fuel acc =
        { result := ConnectResult.rejected
            ("WebSocket connection failed: " ++ msg ++ " (" ++ host ++ ":"
              ++ toString port ++ ")"),
          channels := acc ++ List.replicate m WsReadyState.opened,
          handlerStarted := false } := by
  intro m
  induction m with
  | zero =>
    intro fuel i acc _ hfail hlt
    cases fuel with
    | zero => omega
    | succ f =>
      rw [Nat.add_zero] at hfail
      simp [connectLoop, hfail]
  | succ k ih =>
    intro fuel i acc hok hfail hlt
    cases fuel with
    | zero => omega
    | succ f =>
      have h0 : hs i = HandshakeOutcome.ok := by
        have := hok 0 (Nat.succ_pos k)
        simpa using this
      rw [connectLoop, h0]
      have hok' : ∀ d, d < k → hs (i + 1 + d) = HandshakeOutcome.ok := by
        intro d hd
        have := hok (d + 1) (by omega)
        rwa [show i + (d + 1) = i + 1 + d by omega] at this
      have hfail' : hs (i + 1 + k) = HandshakeOutcome.fail msg := by
        rwa [show i + (k + 1) = i + 1 + k by omega] at hfail
      rw [ih f (i + 1) (acc ++ [WsReadyState.opened]) hok' hfail' (by omega)]
      simp [List.replicate_succ, List.append_assoc]

/-- The tunnel state after `close()` has `closed = true`, so the message
handler ignores every later frame: delivering any frame sequence to a closed
tunnel has no effect. -/
theorem processFrames_closed (s : TunnelState) (hc : s.closed = true) :
    ∀ fs, processFrames s fs
        = { state := s, events := [], closeExecutions := 0 } := by
  intro fs
  induction fs with
  | nil => rfl
  | cons f rest ih =>
    have h1 : onWsMessage s f
        = { state := s, events := [], closeExecutions := 0 } := by
      simp [onWsMessage, hc]
    simp [processFrames, h1, ih]

/-- A frame that is binary, fails to parse as JSON, or parses with a type
other than `"tunnel_done"`, leaves the handler state untouched and emits
nothing. -/
theorem onWsMessage_not_done (s : TunnelState) (f : WsFrame)
    (hf : isDoneFrame f = false) :
    onWsMessage s f = { state := s, events := [], closeExecutions := 0 } := by
  rcases f with ⟨b, p⟩
  cases b
  · cases p with
    | none => simp [onWsMessage]
    | some m =>
      simp [isDoneFrame] at hf
      by_cases hc : s.closed
      · simp [onWsMessage, hc]
      · simp [onWsMessage, hc, hf]
  · simp [onWsMessage]

/-- A valid `tunnel_done` text frame arriving while the tunnel is open emits
`tunnel_done` with the payload, runs `close()` once (which emits `close`),
and leaves the tunnel closed. -/
theorem onWsMessage_done (s : TunnelState) (f : WsFrame) (m : ControlMsg)
    (hc : s.closed = false) (hb : f.isBinary = false) (hp : f.parsed = some m)
    (hm : m.type = "tunnel_done") :
    onWsMessage s f =
      { state := (Tunnel.close s).state,
        events := [TunnelEvent.tunnelDone m, TunnelEvent.closeEv],
        closeExecutions := 1 } := by
  simp [onWsMessage, hb, hc, hp, hm, Tunnel.close]

/-- Full behaviour of the message handler over a frame sequence delivered to
an open tunnel: the first recognised `tunnel_done` frame (if any) produces
exactly the event pair `[tunnel_done payload, close]` and one `close()`
execution, later frames being ignored because the state is closed; with no
recognised frame, nothing happens at all. -/
theorem processFrames_spec (s : TunnelState) (hc : s.closed = false) :
    ∀ fs,
      (∀ m, firstDone fs = some m →
        processFrames s fs =
          { state := (Tunnel.close s).state,
            events := [TunnelEvent.tunnelDone m, TunnelEvent.closeEv],
            closeExecutions := 1 }) ∧
      (firstDone fs = none →
        processFrames s fs
          = { state := s, events := [], closeExecutions := 0 }) := by
  intro fs
  induction fs with
  | nil =>
    constructor
    · intro m hm
      simp [firstDone, List.find?] at hm
    · intro _
      rfl
  | cons f rest ih =>
    by_cases hd : isDoneFrame f = true
    · obtain ⟨m, hp, hm, hb⟩ :
          ∃ m, f.parsed = some m ∧ m.type = "tunnel_done"
            ∧ f.isBinary = false := by
        rcases f with ⟨b, p⟩
        cases b
        · cases p with
          | none => simp [isDoneFrame] at hd
          | some m => exact ⟨m, rfl, by simpa [isDoneFrame] using hd, rfl⟩
        · simp [isDoneFrame] at hd
      have hfd : firstDone (f :: rest) = some m := by
        simp [firstDone, List.find?_cons_of_pos _ hd, hp]
      have h1 := onWsMessage_done s f m hc hb hp hm
      have h2 := processFrames_closed (Tunnel.close s).state rfl rest
      constructor
      · intro m' hm'
        rw [hfd] at hm'
        injection hm' with hmm
        subst hmm
        simp [processFrames, h1, h2]
      · intro hnone
        rw [hfd] at hnone
        exact absurd hnone (by simp)
    · have hd' : isDoneFrame f = false := by
        simpa using hd
      have h1 := onWsMessage_not_done s f hd'
      have hfd : firstDone (f :: rest) = firstDone rest := by
        simp [firstDone, List.find?_cons_of_neg _ hd]
      constructor
      · intro m hm
        rw [hfd] at hm
        have h2 := ih.1 m hm
        simp [processFrames, h1, h2]
      · intro hm
        rw [hfd] at hm
        have h2 := ih.2 hm
        simp [processFrames, h1, h2]

/-- C2 (amended), corrected from "the pool is entirely undone: every channel
already opened for this setup attempt is closed before open() rejects": when
the first failing handshake is channel `j`, setup rejects with an error
naming the remote host:port and the multiplex handler is never started, but
the `j` channels already opened are left OPEN in the channel set — the
source performs no `ws.close()` on them before rejecting. -/
theorem handshake_failure_aborts_but_leaves_channels_open
    (host : String) (port : Nat) (cpuCount : Nat)
    (hs : Nat → HandshakeOutcome) (msg : String) (j : Nat)
    (hok : ∀ d, d < j → hs d = HandshakeOutcome.ok)
    (hfail : hs j = HandshakeOutcome.fail msg)
    (hlt : j < Nat.min cpuCount 16) :
    connectToServer host port cpuCount hs =
      { result := ConnectResult.rejected
          ("WebSocket connection failed: " ++ msg ++ " (" ++ host ++ ":"
            ++ toString port ++ ")"),
        channels := List.replicate j WsReadyState.opened,
        handlerStarted := false } := by
  have h1 : ∀ d, d < j → hs (0 + d) = HandshakeOutcome.ok := by
    intro d hd
    simpa [Nat.zero_add] using hok d hd
  have h2 : hs (0 + j) = HandshakeOutcome.fail msg := by
    simpa [Nat.zero_add] using hfail
  have := connectLoop_first_fail host port hs msg j (Nat.min cpuCount 16)
    0 [] h1 h2 hlt
  simpa [connectToServer] using this

/-- C2 witness: parallelism 3 with the third handshake failing — setup
rejects naming `abbreviated.ai:443`, the handler never starts, and the two
channels already opened stay OPEN. -/
theorem handshake_failure_aborts_witness :
    connectToServer "abbreviated.ai" 443 3
        (fun i => if i < 2 then HandshakeOutcome.ok
                  else HandshakeOutcome.fail "connect ECONNREFUSED")
      = { result := ConnectResult.rejected
            "WebSocket connection failed: connect ECONNREFUSED (abbreviated.ai:443)",
          channels := List.replicate 2 WsReadyState.opened,
          handlerStarted := false } := by
  exact handshake_failure_aborts_but_leaves_channels_open
    "abbreviated.ai" 443 3 _ "connect ECONNREFUSED" 2
    (by intro d hd; interval_cases d <;> rfl) rfl (by decide)

/-- C2 counterexample: with parallelism 2 and the second handshake failing,
`connectToServer` rejects while the first channel remains OPEN (not closed)
in the channel set — so the pool is not "entirely undone" before `open()`
rejects. -/
theorem handshake_failure_channels_left_open_counterexample :
    (connectToServer "abbreviated.ai" 443 2
        (fun i => if i = 0 then HandshakeOutcome.ok
                  else HandshakeOutcome.fail "socket hang up")).result
      = ConnectResult.rejected
          "WebSocket connection failed: socket hang up (abbreviated.ai:443)" ∧
    (connectToServer "abbreviated.ai" 443 2
        (fun i => if i = 0 then HandshakeOutcome.ok
                  else HandshakeOutcome.fail "socket hang up")).channels
      = [WsReadyState.opened] ∧
    WsReadyState.opened ≠ WsReadyState.closed := by
  refine ⟨rfl, rfl, by decide⟩

/-! ## Claims -/

/-- C1 (amended), corrected from "the close event is emitted exactly once
across all invocations": for every tunnel state, `close()` never throws (it
is a total function), and only the first call performs the teardown — after
one `close()` the handler is gone and the channel set empty, so a second
call closes no handler and no channel — but each invocation, the second
included, emits one `close` event. -/
theorem close_second_call_no_teardown_but_reemits (s : TunnelState) :
    (Tunnel.close s).state.closed = true ∧
    (Tunnel.close s).handlerClosed = s.h2Handler ∧
    (Tunnel.close (Tunnel.close s).state).handlerClosed = false ∧
    (Tunnel.close (Tunnel.close s).state).wsCloseCalls = 0 ∧
    (Tunnel.close s).events = [TunnelEvent.closeEv] ∧
    (Tunnel.close (Tunnel.close s).state).events = [TunnelEvent.closeEv] := by
  refine ⟨rfl, rfl, rfl, ?_, rfl, rfl⟩
  simp [Tunnel.close]

/-- C1 counterexample: from a freshly opened tunnel (handler installed, one
OPEN channel), calling `close()` twice emits the `close` event twice, not
exactly once — the source's `close()` has no `closed` guard and its
`emit("close")` is unconditional. -/
theorem close_emits_twice_counterexample :
    ((Tunnel.close { closed := false, h2Handler := true,
                     wsConnections := [WsReadyState.opened] }).events ++
      (Tunnel.close (Tunnel.close { closed := false, h2Handler := true,
                                    wsConnections := [WsReadyState.opened]
                                  }).state).events).count
      TunnelEvent.closeEv = 2 ∧ (2 : Nat) ≠ 1 := by
  decide

/-- C3 (amended), corrected from "every 2xx status is treated as success":
the allocation response handler classifies 502/503/504 as service
unavailability (message contains "temporarily unavailable" and the status
code), 401/403 as authentication failure, 429 as rate limiting, and every
other non-200 status — other 2xx codes such as 201 included — as a generic
error carrying the HTML-tag-stripped, whitespace-collapsed,
120-character-capped response body; only status 200 is treated as success,
with the JSON body parsed into a TunnelInfo. -/
theorem alloc_status_classification (scheme host : String) (port status : Nat)
    (data : String) (parsed : Option CreateTunnelResponse) :
    (status = 502 ∨ status = 503 ∨ status = 504 →
      getTunnelInfoHandleResponse scheme host port status data parsed
        = AllocResult.err
            ("Failed to create tunnel: Tunnel server is temporarily unavailable (HTTP "
              ++ toString status ++ ")")) ∧
    (status = 401 ∨ status = 403 →
      getTunnelInfoHandleResponse scheme host port status data parsed
        = AllocResult.err
            ("Failed to create tunnel: Authentication failed (HTTP "
              ++ toString status ++ ") — check your API token")) ∧
    (status = 429 →
      getTunnelInfoHandleResponse scheme host port status data parsed
        = AllocResult.err
            "Failed to create tunnel: Rate limited by tunnel server (HTTP 429) — try again later") ∧
    (status ≠ 200 → status ≠ 502 → status ≠ 503 → status ≠ 504 →
      status ≠ 401 → status ≠ 403 → status ≠ 429 →
      getTunnelInfoHandleResponse scheme host port status data parsed
        = AllocResult.err
            ("Failed to create tunnel: HTTP " ++ toString status ++
              (if processBody data = "" then ""
               else ": " ++ (processBody data).take 120))) ∧
    (∀ r u, status = 200 → parsed = some r → parseURL r.url = some u →
      getTunnelInfoHandleResponse scheme host port status data parsed
        = AllocResult.okInfo
            { id := r.tunnel_id,
              url := urlToString
                (if scheme = "https" then normalizeAllocUrl u else u),
              remoteHost := host, remotePort := port }) := by
  refine ⟨?_, ?_, ?_, ?_, ?_⟩
  · intro h
    rcases h with rfl | rfl | rfl <;>
      simp [getTunnelInfoHandleResponse, ← String.append_assoc]
  · intro h
    rcases h with rfl | rfl <;>
      simp [getTunnelInfoHandleResponse, ← String.append_assoc]
  · intro h
    subst h
    simp [getTunnelInfoHandleResponse]
  · intro h200 h502 h503 h504 h401 h403 h429
    simp [getTunnelInfoHandleResponse, h200, h502, h503, h504, h401, h403,
      h429, ← String.append_assoc]
  · intro r u h200 hp hu
    subst h200
    simp [getTunnelInfoHandleResponse, hp, hu]

/-- C3 witness: allocation status 503 yields the service-unavailable error
whose message contains "temporarily unavailable" and the code 503. -/
theorem alloc_status_classification_witness :
    getTunnelInfoHandleResponse "https" "abbreviated.ai" 443 503 "" none
      = AllocResult.err
          "Failed to create tunnel: Tunnel server is temporarily unavailable (HTTP 503)" := by
  exact (alloc_status_classification "https" "abbreviated.ai" 443 503 "" none).1
    (Or.inr (Or.inl rfl))

/-- C3 counterexample: HTTP 201 — a 2xx status, hence "success" per the
claim — is rejected as a generic error: the source's success test is
`res.statusCode !== 200`, not "any 2xx". -/
theorem alloc_2xx_not_success_counterexample :
    getTunnelInfoHandleResponse "https" "abbreviated.ai" 443 201 "Created"
        (some { id := 1, tunnel_id := "t", url := "http://t.abbreviated.ai/" })
      = AllocResult.err "Failed to create tunnel: HTTP 201: Created" := by
  decide

/-- C7: when the allocation call was made over HTTPS, the URL placed in the
returned TunnelInfo is the response URL with its scheme forced to `https`
and a bare port 80 stripped; the normalised URL never keeps scheme other
than https nor a port 80. -/
theorem https_alloc_normalizes_url (host : String) (port : Nat)
    (data : String) (r : CreateTunnelResponse) (u : URLRec)
    (hu : parseURL r.url = some u) :
    getTunnelInfoHandleResponse "https" host port 200 data (some r)
      = AllocResult.okInfo
          { id := r.tunnel_id, url := urlToString (normalizeAllocUrl u),
            remoteHost := host, remotePort := port } ∧
    (normalizeAllocUrl u).scheme = "https" ∧
    (normalizeAllocUrl u).port ≠ "80" := by
  refine ⟨?_, ?_, ?_⟩
  · simp [getTunnelInfoHandleResponse, hu]
  · simp [normalizeAllocUrl, setProtocolHttps]
    split <;> split <;> rfl
  · simp only [normalizeAllocUrl, setProtocolHttps]
    split <;> split <;> simp_all

/-- C7 witness: the claim's example — an allocation response url
`"http://x.example/"` reached over an HTTPS allocation call becomes
`"https://x.example/"` in the TunnelInfo. -/
theorem https_alloc_normalizes_url_witness :
    getTunnelInfoHandleResponse "https" "abbreviated.ai" 443 200 "body"
        (some { id := 7, tunnel_id := "t", url := "http://x.example/" })
      = AllocResult.okInfo
          { id := "t", url := "https://x.example/",
            remoteHost := "abbreviated.ai", remotePort := 443 } := by
  have h := (https_alloc_normalizes_url "abbreviated.ai" 443 "body"
    { id := 7, tunnel_id := "t", url := "http://x.example/" }
    { scheme := "http", host := "x.example", port := "", path := "/" }
    (by decide)).1
  rw [h]
  decide

/-- C5: a `tunnel_done` text control frame received on any pooled channel of
an open tunnel triggers exactly one `tunnel_done` event carrying its payload
and exactly one execution of `close()`, even when equivalent frames arrive
on several channels — the first execution of `close()` sets the `closed`
flag, so the handler ignores every later frame; and any sequence of text
frames that are not valid JSON or have a different `type` is ignored without
any effect. -/
theorem tunnel_done_event_and_close_once (s : TunnelState) (fs : List WsFrame)
    (m : ControlMsg) (hc : s.closed = false) (hm : firstDone fs = some m) :
    (processFrames s fs).events
        = [TunnelEvent.tunnelDone m, TunnelEvent.closeEv] ∧
    (processFrames s fs).closeExecutions = 1 ∧
    (processFrames s fs).state.closed = true ∧
    (∀ fs', firstDone fs' = none →
      processFrames s fs'
        = { state := s, events := [], closeExecutions := 0 }) := by
  have h := (processFrames_spec s hc fs).1 m hm
  exact ⟨by rw [h], by rw [h], by rw [h]; rfl,
    fun fs' h0 => (processFrames_spec s hc fs').2 h0⟩

/-- C5 witness: an open tunnel receiving a non-JSON text frame, a `"ping"`
control frame, and two equivalent `tunnel_done` frames (as from two pooled
channels) executes `close()` exactly once and emits the event pair once. -/
theorem tunnel_done_event_and_close_once_witness :
    (processFrames
        { closed := false, h2Handler := true,
          wsConnections := [WsReadyState.opened, WsReadyState.opened] }
        [{ isBinary := false, parsed := none },
         { isBinary := false,
           parsed := some { type := "ping", tunnel_id := "abc", data := none } },
         { isBinary := false,
           parsed := some { type := "tunnel_done", tunnel_id := "abc",
                            data := some "ok" } },
         { isBinary := false,
           parsed := some { type := "tunnel_done", tunnel_id := "abc",
                            data := some "ok" } }]).closeExecutions = 1 := by
  exact (tunnel_done_event_and_close_once _ _
    { type := "tunnel_done", tunnel_id := "abc", data := some "ok" }
    rfl (by decide)).2.1

/-- C6: with every handshake succeeding, the pool opens exactly
`min(detected parallelism, 16)` channels; in particular 1, 4 and 32 CPUs
yield 1, 4 and 16 channels. -/
theorem pool_opens_min_cpu_16_channels (host : String) (port : Nat)
    (cpuCount : Nat) (hs : Nat → HandshakeOutcome)
    (hok : ∀ i, hs i = HandshakeOutcome.ok) :
    (connectToServer host port cpuCount hs).channels.length
        = Nat.min cpuCount 16 ∧
    (connectToServer host port 1 hs).channels.length = 1 ∧
    (connectToServer host port 4 hs).channels.length = 4 ∧
    (connectToServer host port 32 hs).channels.length = 16 := by
  refine ⟨?_, ?_, ?_, ?_⟩ <;>
    simp [connectToServer, connectLoop_all_ok host port hs hok]

/-- C6 witness: a concrete all-succeeding handshake function with 4 detected
CPUs opens exactly 4 channels. -/
theorem pool_opens_min_cpu_16_channels_witness :
    (connectToServer "abbreviated.ai" 443 4
       (fun _ => HandshakeOutcome.ok)).channels.length = 4 :=
  (pool_opens_min_cpu_16_channels "abbreviated.ai" 443 4
    (fun _ => HandshakeOutcome.ok) (fun _ => rfl)).2.2.1

/-- C4 (amended), corrected from "a failure occurring after headers were
sent is logged only and nothing further is written onto the virtual
response": before response headers are sent, a local-connect failure or a
request-pipe failure yields a 502 head and a body describing the failure
("Bad Gateway" for the pipe failure, "Failed to connect to local server:
..." for the connect failure); after headers are sent the 502 head is
suppressed, but both handlers still end the virtual response with the
failure body — the `res.end(...)` call is unconditional; only a
response-pipeline failure is logged without writing anything onto the
response. -/
theorem forwarder_502_before_headers_end_after (m : String) :
    onRequestPipelineError (some m) false
      = [ResAction.logLine ("Request pipeline error: " ++ m),
         ResAction.writeHead 502 [("content-type", "text/plain")],
         ResAction.endBody "Bad Gateway"] ∧
    onClientReqError m false
      = [ResAction.logLine ("Local request error: " ++ m),
         ResAction.writeHead 502 [("content-type", "text/plain")],
         ResAction.endBody ("Failed to connect to local server: " ++ m)] ∧
    onRequestPipelineError (some m) true
      = [ResAction.logLine ("Request pipeline error: " ++ m),
         ResAction.endBody "Bad Gateway"] ∧
    onClientReqError m true
      = [ResAction.logLine ("Local request error: " ++ m),
         ResAction.endBody ("Failed to connect to local server: " ++ m)] ∧
    onResponsePipelineError (some m)
      = [ResAction.logLine ("Response pipeline error: " ++ m)] ∧
    (onResponsePipelineError (some m)).all
        (fun a => ! a.writesToResponse) = true ∧
    onRequestPipelineError none false = [] := by
  exact ⟨rfl, rfl, rfl, rfl, rfl, rfl, rfl⟩

/-- C4 counterexample: a request-pipe failure after headers were sent is not
"logged only": the handler still ends the virtual response with the body
"Bad Gateway" (`res.end("Bad Gateway")` sits outside the
`if (!res.headersSent)` guard). -/
theorem forwarder_writes_after_headers_counterexample :
    (onRequestPipelineError (some "ECONNRESET") true).any
        ResAction.writesToResponse = true ∧
    onRequestPipelineError (some "ECONNRESET") true
      = [ResAction.logLine "Request pipeline error: ECONNRESET",
         ResAction.endBody "Bad Gateway"] := by
  exact ⟨rfl, rfl⟩

/-- C8: the headers forwarded to the local server are exactly the virtual
request's headers minus pseudo-headers, minus the fixed hop-by-hop set
(case-insensitively), and minus `host` and `upgrade` — given that HTTP/2
delivers header names lowercased; and no header of the local response whose
lowercased name is hop-by-hop (so in particular `Connection` and
`Transfer-Encoding`, in any case variant) is ever relayed onward. -/
theorem header_filtering_request_and_response
    (hs resp : List (String × String))
    (hlow : ∀ kv ∈ hs, asciiToLower kv.1 = kv.1) :
    filterRequestHeaders hs = hs.filter (fun kv => specForwardsHeader kv.1) ∧
    (∀ kv ∈ filterResponseHeaders resp,
      HOP_BY_HOP_HEADERS.contains (asciiToLower kv.1) = false) := by
  constructor
  · unfold filterRequestHeaders
    rw [List.filter_filter, List.filter_filter]
    apply List.filter_congr
    intro kv hkv
    simp [specForwardsHeader, hlow kv hkv, Bool.and_assoc, Bool.and_comm,
      Bool.and_left_comm]
  · intro kv hkv
    unfold filterResponseHeaders at hkv
    rw [List.mem_filter] at hkv
    simpa using hkv.2

/-- C8 witness: a request carrying a pseudo-header, `connection`, `host`,
`upgrade` and `accept` forwards only `accept`; a local response carrying
`Connection: keep-alive` and `Transfer-Encoding: chunked` relays neither. -/
theorem header_filtering_witness :
    filterRequestHeaders
        [(":path", "/"), ("connection", "keep-alive"), ("host", "h"),
         ("upgrade", "websocket"), ("accept", "text/html")]
      = [("accept", "text/html")] ∧
    filterResponseHeaders
        [("Connection", "keep-alive"), ("Transfer-Encoding", "chunked"),
         ("content-length", "3")]
      = [("content-length", "3")] := by
  constructor
  · rw [(header_filtering_request_and_response
      [(":path", "/"), ("connection", "keep-alive"), ("host", "h"),
       ("upgrade", "websocket"), ("accept", "text/html")] [] (by decide)).1]
    decide
  · decide

/-- In any run of the bridge, the chunks sent to the local WebSocket are
exactly the data chunks whose paired ready state was OPEN — in order and
unmodified — and the local WebSocket is closed exactly once per stream-end
event seen while OPEN. Chunks seen in any other state contribute nothing,
late or early: they are never buffered or replayed. -/
theorem bridgeRun_spec :
    ∀ evs, sentChunks (bridgeRun evs) = openDataChunks evs ∧
      closeLocalCount (bridgeRun evs)
        = (evs.filter (fun p => p.1 = WsReadyState.opened
            ∧ p.2 = VirtEvent.streamEnded)).length := by
  intro evs
  induction evs with
  | nil => exact ⟨rfl, rfl⟩
  | cons p rest ih =>
    rcases p with ⟨st, e⟩
    by_cases hst : st = WsReadyState.opened
    · subst hst
      rcases e with c | _ <;>
        simp_all [bridgeRun, bridgeStep, onVirtualData, onVirtualEnd,
          sentChunks, openDataChunks, closeLocalCount, List.filterMap_append,
          List.filter_append]
    · rcases e with c | _ <;>
        simp_all [bridgeRun, bridgeStep, onVirtualData, onVirtualEnd,
          sentChunks, openDataChunks, closeLocalCount, List.filterMap_append,
          List.filter_append]

/-- C10: after the 200 "connected" signal, a chunk arriving from the virtual
stream is forwarded to the local WebSocket exactly when its `readyState` is
OPEN; a chunk arriving in any other state is silently discarded — over any
whole run, the frames sent are exactly the chunks seen while OPEN, so a
discarded chunk is never buffered or retried later — and the end of the
virtual stream closes the local WebSocket only when it is OPEN. -/
theorem ws_bridge_forwards_only_when_open
    (evs : List (WsReadyState × VirtEvent)) (st : WsReadyState)
    (c : List Nat) (h : st ≠ WsReadyState.opened) :
    onVirtualData WsReadyState.opened c = [BridgeAction.sendFrame c] ∧
    onVirtualData st c = [] ∧
    onVirtualEnd WsReadyState.opened = [BridgeAction.closeLocal] ∧
    onVirtualEnd st = [] ∧
    sentChunks (bridgeRun evs) = openDataChunks evs ∧
    closeLocalCount (bridgeRun evs)
      = (evs.filter (fun p => p.1 = WsReadyState.opened
          ∧ p.2 = VirtEvent.streamEnded)).length := by
  refine ⟨rfl, ?_, rfl, ?_, (bridgeRun_spec evs).1, (bridgeRun_spec evs).2⟩
  · simp [onVirtualData, h]
  · simp [onVirtualEnd, h]

/-- C10 witness: a run in which the local WebSocket is OPEN for the first
chunk, CLOSING for the second and CLOSED at stream end forwards only the
first chunk and never closes the local socket. -/
theorem ws_bridge_forwards_only_when_open_witness :
    onVirtualData WsReadyState.closing [9, 9] = [] ∧
    sentChunks (bridgeRun
        [(WsReadyState.opened, VirtEvent.dataChunk [1, 2]),
         (WsReadyState.closing, VirtEvent.dataChunk [9, 9]),
         (WsReadyState.closed, VirtEvent.streamEnded)])
      = [[1, 2]] := by
  have h := ws_bridge_forwards_only_when_open
    [(WsReadyState.opened, VirtEvent.dataChunk [1, 2]),
     (WsReadyState.closing, VirtEvent.dataChunk [9, 9]),
     (WsReadyState.closed, VirtEvent.streamEnded)]
    WsReadyState.closing [9, 9] (by decide)
  refine ⟨h.2.1, ?_⟩
  rw [h.2.2.2.2.1]
  decide

/-- C9: the transport-channel handshake request always carries exactly one
`Authorization` header; with no apiToken configured its value is the literal
`"Bearer undefined"` (JavaScript template interpolation of `undefined`),
whereas the allocation request carries no `Authorization` header at all in
that case (conditional spread on a falsy token). -/
theorem handshake_vs_allocation_auth_header :
    handshakeHeaders none = [("Authorization", "Bearer undefined")] ∧
    (∀ t : Option String,
      (handshakeHeaders t).map Prod.fst = ["Authorization"]) ∧
    allocationHeaders none = [("Content-Type", "application/json")] ∧
    ((allocationHeaders none).map Prod.fst).contains "Authorization" = false := by
  exact ⟨rfl, fun t => rfl, rfl, by decide⟩
